import Mathlib

/-
Verification development for the NES-style chiptune music engine
(TypeScript class MusicEngine, Web Audio API).

The engine is shallowly embedded: all times, frequencies, gains and
tempos are modelled as exact rationals (the JS code computes with IEEE
doubles; the claims under study concern the arithmetic structure of the
computations, which the rational model captures exactly), except for the
pulse-wave Fourier coefficients, which involve sin/cos and are modelled
over the reals.  Web Audio AudioParam automation (setValueAtTime,
linearRampToValueAtTime, cancelScheduledValues) is modelled as an
explicit event list on each parameter.  Externally visible actions that
do not change engine state (console warnings, context resume, timer
creation, noise one-shots) are modelled as an explicit effect list
returned alongside the new state.
-/

namespace Chiptune

/-- Step constant: rest (silence). Source: `const R = 0`. -/
def R : ℚ := 0

/-- Step constant: sustain (continue previous note). Source: `const S = -1`. -/
def S : ℚ := -1

/-- Drum hit type: kick. Source: `const K = 1`. -/
def K : ℚ := 1

/-- Drum hit type: snare. Source: `const SN = 2`. -/
def SN : ℚ := 2

/-- Drum hit type: closed hi-hat. Source: `const HH = 3`. -/
def HH : ℚ := 3

/-- Drum hit type: open hi-hat. Source: `const OH = 4`. -/
def OH : ℚ := 4

-- Note frequencies (Hz, equal temperament, A4 = 440), octave 2.
def _C2 : ℚ := 6541/100
def _Cs2 : ℚ := 6930/100
def _D2 : ℚ := 7342/100
def _Eb2 : ℚ := 7778/100
def _E2 : ℚ := 8241/100
def _F2 : ℚ := 8731/100
def _Fs2 : ℚ := 9250/100
def _G2 : ℚ := 9800/100
def _Gs2 : ℚ := 10383/100
def _A2 : ℚ := 11000/100
def _Bb2 : ℚ := 11654/100
def _B2 : ℚ := 12347/100

-- Octave 3.
def _C3 : ℚ := 13081/100
def _Cs3 : ℚ := 13859/100
def _D3 : ℚ := 14683/100
def _Eb3 : ℚ := 15556/100
def _E3 : ℚ := 16481/100
def _F3 : ℚ := 17461/100
def _Fs3 : ℚ := 18500/100
def _G3 : ℚ := 19600/100
def _Gs3 : ℚ := 20765/100
def _A3 : ℚ := 22000/100
def _Bb3 : ℚ := 23308/100
def _B3 : ℚ := 24694/100

-- Octave 4.
def _C4 : ℚ := 26163/100
def _Cs4 : ℚ := 27718/100
def _D4 : ℚ := 29366/100
def _Eb4 : ℚ := 31113/100
def _E4 : ℚ := 32963/100
def _F4 : ℚ := 34923/100
def _Fs4 : ℚ := 36999/100
def _G4 : ℚ := 39200/100
def _Gs4 : ℚ := 41530/100
def _A4 : ℚ := 44000/100
def _Bb4 : ℚ := 46616/100
def _B4 : ℚ := 49388/100

-- Octave 5.
def _C5 : ℚ := 52325/100
def _Cs5 : ℚ := 55437/100
def _D5 : ℚ := 58733/100
def _Eb5 : ℚ := 62225/100
def _E5 : ℚ := 65925/100
def _F5 : ℚ := 69846/100
def _Fs5 : ℚ := 73999/100
def _G5 : ℚ := 78399/100
def _Gs5 : ℚ := 83061/100
def _A5 : ℚ := 88000/100
def _Bb5 : ℚ := 93233/100
def _B5 : ℚ := 98777/100

/-- Song data record, mirroring the TypeScript interface SongData:
name, tempo (BPM), four step sequences (pulse1 lead, pulse2 harmony,
triangle bass, noise drums), four channel volumes, two duty cycles. -/
structure SongData where
  name : String
  tempo : ℚ
  pulse1 : List ℚ
  pulse2 : List ℚ
  triangle : List ℚ
  noise : List ℚ
  pulse1Vol : ℚ
  pulse2Vol : ℚ
  triVol : ℚ
  noiseVol : ℚ
  pulse1Duty : ℚ
  pulse2Duty : ℚ
deriving DecidableEq

/-- GAME THEME, as written in the SONGS table (key of the record: game). -/
def gameSong : SongData where
  name := "Vault Hunter\x27s Pursuit"
  tempo := 150
  pulse1Duty := 1/4
  pulse2Duty := 1/8
  pulse1Vol := 105/1000
  pulse2Vol := 66/1000
  triVol := 90/1000
  noiseVol := 54/1000
  pulse1 := [
    _D5, _E5, _F5, _G5, _A5, S, S, _G5,
    _F5, _E5, _D5, _Cs5, _D5, S, S, R,
    _Bb4, S, _D5, _F5, S, S, _D5, _Bb4,
    _A4, S, _Cs5, _E5, S, S, _D5, _Cs5,
    _D5, _E5, _F5, _A5, _Bb5, S, _A5, _G5,
    _F5, _E5, _C5, _E5, _G5, S, _A5, _G5,
    _Bb5, _A5, _G5, _F5, _D5, _Bb4, _D5, _F5,
    _E5, _Cs5, _A4, _Cs5, _E5, _Cs5, _D5, S]
  pulse2 := [
    _D4, _A4, _D4, _A4, _F4, _A4, _D4, _A4,
    _D4, _A4, _F4, _A4, _D4, _A4, _D4, _A4,
    _Bb3, _F4, _Bb3, _F4, _D4, _F4, _Bb3, _F4,
    _A3, _E4, _A3, _E4, _Cs4, _E4, _A3, _E4,
    _D4, _A4, _D4, _A4, _F4, _A4, _D4, _A4,
    _C4, _G4, _C4, _G4, _E4, _G4, _C4, _G4,
    _Bb3, _F4, _D4, _F4, _Bb3, _F4, _D4, _F4,
    _A3, _E4, _Cs4, _E4, _A3, _Cs4, _D4, S]
  triangle := [
    _D2, _D3, _A2, _D3, _D2, _D3, _A2, _D3,
    _D2, _F2, _A2, _D3, _A2, _F2, _D2, _D3,
    _Bb2, _Bb3, _F2, _Bb3, _Bb2, _Bb3, _F2, _Bb2,
    _A2, _A3, _E2, _A3, _A2, _A3, _E2, _A3,
    _D2, _D3, _A2, _D3, _D2, _D3, _F2, _D3,
    _C3, _C2, _G2, _C3, _C2, _E2, _G2, _C3,
    _Bb2, _Bb3, _F2, _Bb3, _Bb2, _D3, _F2, _Bb2,
    _A2, _A3, _E2, _A3, _A2, _E2, _D2, S]
  noise := [
    K, HH, SN, HH, K, K, SN, HH, K, HH, SN, HH, K, K, SN, HH,
    K, HH, SN, HH, K, HH, SN, HH, K, HH, SN, HH, K, K, SN, OH,
    K, HH, SN, HH, K, K, SN, HH, K, HH, SN, HH, K, HH, SN, HH,
    K, HH, SN, HH, K, K, SN, HH, K, K, SN, HH, K, K, SN, OH]

/-- MENU THEME, as written in the SONGS table (key of the record: menu). -/
def menuSong : SongData where
  name := "The Arena Awaits"
  tempo := 110
  pulse1Duty := 1/4
  pulse2Duty := 1/2
  pulse1Vol := 75/1000
  pulse2Vol := 45/1000
  triVol := 75/1000
  noiseVol := 24/1000
  pulse1 := [
    _A4, S, S, _C5, S, _E5, S, S,
    _E5, S, _D5, S, _C5, S, _B4, S,
    _A4, S, S, _F4, S, _A4, S, _C5,
    _B4, S, S, _Gs4, S, _E4, S, S,
    _A4, S, S, _E5, S, S, _A5, S,
    S, _F5, _D5, S, _A4, S, S, _D5,
    _B4, S, _D5, S, _G5, S, S, _D5,
    _E5, S, S, _Gs4, _B4, S, _E5, S]
  pulse2 := [
    R, R, _E4, S, S, S, R, R,
    R, R, _A4, S, S, S, R, R,
    R, R, _C4, S, S, S, R, R,
    R, R, _E4, S, S, S, R, R,
    R, R, _C5, S, S, S, R, R,
    R, R, _A4, S, S, S, R, R,
    R, R, _D5, S, S, S, R, R,
    R, R, _B4, S, S, S, R, R]
  triangle := [
    _A2, S, _E3, S, _A2, S, _E3, S,
    _A2, S, _C3, S, _E3, S, _A2, S,
    _F2, S, _C3, S, _F2, S, _A2, S,
    _E2, S, _B2, S, _E3, S, _Gs2, S,
    _A2, S, _E3, S, _A3, S, _E3, S,
    _D3, S, _A2, S, _D3, S, _F2, S,
    _G2, S, _D3, S, _B2, S, _G3, S,
    _E2, S, _B2, S, _Gs2, S, _E3, S]
  noise := [
    R, R, HH, R, R, R, HH, R, R, R, HH, R, R, R, HH, R,
    R, R, HH, R, R, R, HH, R, R, R, HH, R, R, R, HH, R,
    R, R, HH, R, R, R, HH, R, R, R, HH, R, R, R, HH, R,
    R, R, HH, R, R, R, HH, R, R, R, HH, R, R, R, HH, R]

/-- SCORE THEME, as written in the SONGS table (key of the record: score). -/
def scoreSong : SongData where
  name := "Victor\x27s March"
  tempo := 140
  pulse1Duty := 1/4
  pulse2Duty := 1/4
  pulse1Vol := 90/1000
  pulse2Vol := 66/1000
  triVol := 75/1000
  noiseVol := 36/1000
  pulse1 := [
    _C5, _E5, _G5, S, _E5, _G5, _A5, S,
    _B4, S, _G4, S, _D5, _G5, _B4, S,
    _A4, _G4, _E4, S, _F4, S, _A4, S,
    _G4, S, _E4, S, _C5, S, S, S]
  pulse2 := [
    _E4, _G4, _C5, S, _G4, _C5, _E5, S,
    _D4, S, _B3, S, _B4, _D5, _G4, S,
    _E4, _C4, _A3, S, _A3, S, _C4, S,
    _B3, S, _G3, S, _E4, S, S, S]
  triangle := [
    _C3, _G3, _C3, _E3, _C3, _G3, _E3, _C3,
    _G2, _D3, _G3, _D3, _G2, _B2, _D3, _G3,
    _A2, _E3, _A3, _E3, _F2, _C3, _F3, _C3,
    _G2, _D3, _B2, _G2, _C3, S, S, S]
  noise := [
    K, HH, SN, HH, K, HH, SN, HH,
    K, HH, SN, HH, K, HH, SN, HH,
    K, HH, SN, HH, K, HH, SN, HH,
    K, HH, SN, HH, K, R, R, R]

/-- FAIL THEME, as written in the SONGS table (key of the record: fail). -/
def failSong : SongData where
  name := "Fallen Vaulter"
  tempo := 80
  pulse1Duty := 1/2
  pulse2Duty := 1/2
  pulse1Vol := 66/1000
  pulse2Vol := 45/1000
  triVol := 60/1000
  noiseVol := 15/1000
  pulse1 := [
    _D5, S, S, S, _F5, S, S, S,
    _E5, S, S, S, _Cs5, S, S, S,
    _D5, S, S, S, _Bb4, S, S, S,
    _A4, S, S, S, _D4, S, S, S]
  pulse2 := [
    _A4, S, S, S, _D4, S, S, S,
    _A3, S, S, S, _A3, S, S, S,
    _F4, S, S, S, _D4, S, S, S,
    _E4, S, S, S, _A3, S, S, S]
  triangle := [
    _D2, S, S, S, _D3, S, S, S,
    _A2, S, S, S, _A2, S, S, S,
    _Bb2, S, S, S, _F2, S, S, S,
    _A2, S, S, S, _D2, S, S, S]
  noise := [
    R, R, R, R, R, R, R, R,
    R, R, R, R, R, R, R, R,
    R, R, R, R, R, R, R, R,
    R, R, R, R, R, R, R, R]

/-- The compiled-in song table `const SONGS: Record<string, SongData>`,
modelled as an association list keyed by track name. -/
def SONGS : List (String × SongData) :=
  [("game", gameSong), ("menu", menuSong), ("score", scoreSong), ("fail", failSong)]

/-- Record access `SONGS[trackName]`: returns the song when the key is
present, none otherwise (JS yields undefined for a missing key). -/
def lookupSong (trackName : String) : Option SongData :=
  SONGS.lookup trackName

/-- Structural invariant named by the spec: the four step sequences of a
track have equal length (this common length is the loop period). -/
def channelsEqualLength (song : SongData) : Prop :=
  song.pulse2.length = song.pulse1.length ∧
  song.triangle.length = song.pulse1.length ∧
  song.noise.length = song.pulse1.length

instance (song : SongData) : Decidable (channelsEqualLength song) := by
  unfold channelsEqualLength; infer_instance

/-- One scheduled automation event on a Web Audio AudioParam: a value
set at a timestamp, a linear ramp ending at a timestamp, or an
exponential ramp ending at a timestamp. -/
inductive AEvent where
  | setValue : ℚ → ℚ → AEvent
  | linearRamp : ℚ → ℚ → AEvent
  | expRamp : ℚ → ℚ → AEvent
deriving DecidableEq

/-- The timestamp of an automation event. -/
def AEvent.time : AEvent → ℚ
  | .setValue _ t => t
  | .linearRamp _ t => t
  | .expRamp _ t => t

/-- A Web Audio AudioParam: its directly assigned value plus the list of
scheduled automation events, in scheduling order. -/
structure Param where
  value : ℚ
  events : List AEvent
deriving DecidableEq

/-- AudioParam.cancelScheduledValues(t): removes every scheduled event
with timestamp greater than or equal to t. -/
def Param.cancelScheduledValues (p : Param) (t : ℚ) : Param :=
  { p with events := p.events.filter (fun e => e.time < t) }

/-- AudioParam.setValueAtTime(v, t): appends a set-value event. -/
def Param.setValueAtTime (p : Param) (v t : ℚ) : Param :=
  { p with events := p.events ++ [AEvent.setValue v t] }

/-- AudioParam.linearRampToValueAtTime(v, t): appends a linear-ramp
event. -/
def Param.linearRampToValueAtTime (p : Param) (v t : ℚ) : Param :=
  { p with events := p.events ++ [AEvent.linearRamp v t] }

/-- Direct assignment to AudioParam.value. -/
def Param.setValue (p : Param) (v : ℚ) : Param :=
  { p with value := v }

/-- One persistent tonal voice: an oscillator frequency param paired
with its gain param (the code keeps them in matched Osc/Gain fields). -/
structure ChannelState where
  freq : Param
  gain : Param
deriving DecidableEq

/-- Externally visible action of an engine method that is not a change
to the sequencer/voice state: console warnings, context resume, creation
and teardown of the oscillator bank, scheduler-timer management, the
deferred stopInternal of stop(), and one-shot noise voices. -/
inductive Effect where
  | warnUnknown : String → Effect
  | resumeContext : Effect
  | oscillatorsCreated : Effect
  | oscillatorsDestroyed : Effect
  | timerStarted : Effect
  | timerCleared : Effect
  | stopDeferred : Effect
  | noiseHit : ℚ → ℚ → ℚ → Effect
deriving DecidableEq

/-- The mutable fields of the MusicEngine class.  The audio context is
modelled by the flag audioCtx (non-null or null); the master gain node
and the three tonal voices are present exactly when non-null in the
source. -/
structure EngineState where
  audioCtx : Bool
  masterGain : Option Param
  pulse1 : Option ChannelState
  pulse2 : Option ChannelState
  tri : Option ChannelState
  noiseBuffer : Bool
  currentSong : Option SongData
  currentTrackName : String
  isPlaying : Bool
  currentStep : ℕ
  nextStepTime : ℚ
  schedulerTimer : Bool
  volume : ℚ
  muted : Bool
deriving DecidableEq

/-- Field initializers of the MusicEngine class (the state of a freshly
constructed engine). -/
def initState : EngineState where
  audioCtx := false
  masterGain := none
  pulse1 := none
  pulse2 := none
  tri := none
  noiseBuffer := false
  currentSong := none
  currentTrackName := ""
  isPlaying := false
  currentStep := 0
  nextStepTime := 0
  schedulerTimer := false
  volume := 105/1000
  muted := false

/-- Scheduling parameter LOOKAHEAD = 0.12 seconds. -/
def LOOKAHEAD : ℚ := 12/100

/-- MusicEngine.init: idempotent; on success creates the master gain (at
the effective volume) and the shared noise buffer; on failure (the
parameter ok models whether audio resource creation succeeds — the
source wraps it in try/catch) the engine is left untouched. -/
def init (s : EngineState) (ok : Bool) : EngineState :=
  if s.audioCtx then s
  else if ok then
    { s with
      audioCtx := true
      masterGain := some ⟨if s.muted then 0 else s.volume, []⟩
      noiseBuffer := true }
  else s

/-- MusicEngine.createOscillators: builds the three persistent tonal
voices (pulse 1, pulse 2, triangle), each with gain 0 and a default
frequency (440 Hz pulses, 110 Hz triangle), and starts them. -/
def createOscillators (s : EngineState) : EngineState × List Effect :=
  if s.audioCtx ∧ s.masterGain.isSome then
    ({ s with
        pulse1 := some ⟨⟨440, []⟩, ⟨0, []⟩⟩
        pulse2 := some ⟨⟨440, []⟩, ⟨0, []⟩⟩
        tri := some ⟨⟨110, []⟩, ⟨0, []⟩⟩ },
     [Effect.oscillatorsCreated])
  else (s, [])

/-- MusicEngine.destroyOscillators: stops, disconnects and nulls the
three tonal voices (a no-op when none exist). -/
def destroyOscillators (s : EngineState) : EngineState × List Effect :=
  ({ s with pulse1 := none, pulse2 := none, tri := none },
   if s.pulse1.isSome ∨ s.pulse2.isSome ∨ s.tri.isSome then
     [Effect.oscillatorsDestroyed]
   else [])

/-- MusicEngine.stopInternal: clears the playing flag, the loaded song,
the track name and the step index, cancels the scheduler timer if one is
active, and destroys the oscillators. -/
def stopInternal (s : EngineState) : EngineState × List Effect :=
  let s1 := { s with
    isPlaying := false
    currentSong := none
    currentTrackName := ""
    currentStep := 0 }
  let s2 := if s1.schedulerTimer then { s1 with schedulerTimer := false } else s1
  let timerEff := if s1.schedulerTimer then [Effect.timerCleared] else ([] : List Effect)
  ((destroyOscillators s2).1, timerEff ++ (destroyOscillators s2).2)

/-- MusicEngine.play(trackName): no-op without an audio context or
master gain; warns and returns on an unknown track name; returns without
change when the named track is already playing; otherwise stops the
current session, resumes a suspended context, loads the song at step 0,
creates the oscillators, fades the master gain in over 0.4 s, sets the
first step 0.05 s ahead of now and starts the scheduler timer.  The
parameters ctxSuspended and now model the audio context state and clock
read inside the method. -/
def play (s : EngineState) (trackName : String) (ctxSuspended : Bool) (now : ℚ) :
    EngineState × List Effect :=
  if s.audioCtx ∧ s.masterGain.isSome then
    match lookupSong trackName with
    | none => (s, [Effect.warnUnknown trackName])
    | some song =>
      if s.isPlaying ∧ s.currentTrackName = trackName then (s, [])
      else
        let s1 := (stopInternal s).1
        let e1 := (stopInternal s).2
        let e2 := if ctxSuspended then [Effect.resumeContext] else ([] : List Effect)
        let s2 := { s1 with
          currentSong := some song
          currentTrackName := trackName
          currentStep := 0
          isPlaying := true }
        let s3 := (createOscillators s2).1
        let e3 := (createOscillators s2).2
        let s4 := { s3 with
          masterGain := s3.masterGain.map (fun (g : Param) =>
            (((g.cancelScheduledValues now).setValueAtTime 0 now).linearRampToValueAtTime
              (if s.muted then 0 else s.volume) (now + 4/10))) }
        let s5 := { s4 with nextStepTime := now + 5/100, schedulerTimer := true }
        (s5, e1 ++ e2 ++ e3 ++ [Effect.timerStarted])
  else (s, [])

/-- MusicEngine.stop: no-op when not playing; otherwise ramps the master
gain to 0 over 0.3 s from its current value and defers stopInternal by
350 ms (modelled as the stopDeferred effect). -/
def stop (s : EngineState) (now : ℚ) : EngineState × List Effect :=
  if s.isPlaying then
    let s1 :=
      if s.masterGain.isSome ∧ s.audioCtx then
        { s with
          masterGain := s.masterGain.map (fun (g : Param) =>
            ((g.cancelScheduledValues now).setValueAtTime g.value now).linearRampToValueAtTime
              0 (now + 3/10)) }
      else s
    (s1, [Effect.stopDeferred])
  else (s, [])

/-- MusicEngine.stopImmediate: stopInternal, synchronously. -/
def stopImmediate (s : EngineState) : EngineState × List Effect :=
  stopInternal s

/-- MusicEngine.setVolume: clamps to [0,1], stores the volume, and if a
master gain exists cancels its pending automation at now and sets the
effective value (0 when muted) at now. -/
def setVolume (s : EngineState) (vol now : ℚ) : EngineState :=
  let s1 := { s with volume := max 0 (min 1 vol) }
  if s1.masterGain.isSome ∧ s1.audioCtx then
    { s1 with
      masterGain := s1.masterGain.map (fun (g : Param) =>
        (g.cancelScheduledValues now).setValueAtTime
          (if s1.muted then 0 else s1.volume) now) }
  else s1

/-- MusicEngine.toggleMute: flips the muted flag, and if a master gain
exists cancels its pending automation at now and sets the effective
value (0 when muted, else the stored volume) at now; returns the new
flag. -/
def toggleMute (s : EngineState) (now : ℚ) : EngineState × Bool :=
  let s1 := { s with muted := !s.muted }
  if s1.masterGain.isSome ∧ s1.audioCtx then
    ({ s1 with
        masterGain := s1.masterGain.map (fun (g : Param) =>
          (g.cancelScheduledValues now).setValueAtTime
            (if s1.muted then 0 else s1.volume) now) },
     s1.muted)
  else (s1, s1.muted)

/-- MusicEngine.isMuted. -/
def isMuted (s : EngineState) : Bool :=
  s.muted

/-- MusicEngine.isCurrentlyPlaying. -/
def isCurrentlyPlaying (s : EngineState) : Bool :=
  s.isPlaying

/-- MusicEngine.getCurrentTrack. -/
def getCurrentTrack (s : EngineState) : String :=
  s.currentTrackName

/-- MusicEngine.scheduleTonalNote: a positive note value cancels pending
gain automation, sets the gain to 0 at the step time, ramps it to the
channel volume 5 ms later, and sets the oscillator frequency to the note
value at the step time; a zero value (rest) cancels pending gain
automation and sets the gain to 0 at 3 ms after the step time; any other
value (the sustain marker) does nothing. -/
def scheduleTonalNote (ch : ChannelState) (noteValue channelVol time : ℚ) :
    ChannelState :=
  if 0 < noteValue then
    { freq := ((ch.freq.cancelScheduledValues time).setValueAtTime noteValue time)
      gain := (((ch.gain.cancelScheduledValues time).setValueAtTime 0 time).linearRampToValueAtTime
        channelVol (time + 5/1000)) }
  else if noteValue = 0 then
    { ch with
      gain := (ch.gain.cancelScheduledValues time).setValueAtTime 0 (time + 3/1000) }
  else ch

/-- MusicEngine.scheduleNoise: with an audio context, noise buffer and
master gain present and a recognised positive drum type (kick, snare,
closed hat, open hat), emits a one-shot filtered noise voice at the step
time; otherwise does nothing. -/
def scheduleNoise (s : EngineState) (drumType channelVol time : ℚ) : List Effect :=
  if s.audioCtx ∧ s.noiseBuffer ∧ s.masterGain.isSome ∧ 0 < drumType then
    if drumType = K ∨ drumType = SN ∨ drumType = HH ∨ drumType = OH then
      [Effect.noiseHit drumType channelVol time]
    else []
  else []

/-- MusicEngine.scheduleStep(step, time): reads the four sequences of
the current song at index step mod loop length and schedules each tonal
channel that has a live voice, plus the noise channel.  (The source
dereferences currentSong with a non-null assertion; its only caller
guards on a loaded song, and the unloaded case is modelled as a no-op.) -/
def scheduleStep (s : EngineState) (step : ℕ) (time : ℚ) :
    EngineState × List Effect :=
  match s.currentSong with
  | none => (s, [])
  | some song =>
    let idx := step % song.pulse1.length
    let s1 := { s with
      pulse1 := s.pulse1.map (fun ch =>
        scheduleTonalNote ch (song.pulse1.getD idx 0) song.pulse1Vol time)
      pulse2 := s.pulse2.map (fun ch =>
        scheduleTonalNote ch (song.pulse2.getD idx 0) song.pulse2Vol time)
      tri := s.tri.map (fun ch =>
        scheduleTonalNote ch (song.triangle.getD idx 0) song.triVol time) }
    (s1, scheduleNoise s (song.noise.getD idx 0) song.noiseVol time)

/-- MusicEngine.advanceStep: adds one fixed step duration
(60 / tempo / 2 seconds, an eighth note) to the next-step timestamp and
increments the step index, wrapping to 0 at the loop length. -/
def advanceStep (s : EngineState) : EngineState :=
  match s.currentSong with
  | none => s
  | some song =>
    let secondsPerStep := 60 / song.tempo / 2
    let next := s.currentStep + 1
    { s with
      nextStepTime := s.nextStepTime + secondsPerStep
      currentStep := if song.pulse1.length ≤ next then 0 else next }

/-- The while loop of MusicEngine.schedule, with an explicit fuel bound
(the loop itself has no structural bound; the termination theorem shows
a sufficient fuel after which the guard is false).  Returns the final
state, the accumulated effects, and the number of steps scheduled. -/
def scheduleLoop (now : ℚ) : ℕ → EngineState → EngineState × List Effect × ℕ
  | 0, s => (s, [], 0)
  | fuel + 1, s =>
    if s.nextStepTime < now + LOOKAHEAD then
      let r1 := scheduleStep s s.currentStep s.nextStepTime
      let r2 := scheduleLoop now fuel (advanceStep r1.1)
      (r2.1, r1.2 ++ r2.2.1, r2.2.2 + 1)
    else (s, [], 0)

/-- MusicEngine.schedule: one scheduler tick — returns unless playing
with a context and a loaded song, then fills the lookahead window. -/
def schedule (s : EngineState) (now : ℚ) (fuel : ℕ) :
    EngineState × List Effect × ℕ :=
  if s.isPlaying ∧ s.audioCtx ∧ s.currentSong.isSome then
    scheduleLoop now fuel s
  else (s, [], 0)

/-- MusicEngine.createPulseWave, over the reals: length-64 coefficient
arrays with index 0 zero and, for harmonic n with 1 ≤ n < 64,
real part sin(2·pi·n·d) / (n·pi) and imaginary part
(1 − cos(2·pi·n·d)) / (n·pi). -/
noncomputable def createPulseWave (d : ℝ) : List ℝ × List ℝ :=
  ((List.range 64).map fun (n : ℕ) =>
      if n = 0 then (0:ℝ) else Real.sin (2 * Real.pi * n * d) / (n * Real.pi),
   (List.range 64).map fun (n : ℕ) =>
      if n = 0 then (0:ℝ) else (1 - Real.cos (2 * Real.pi * n * d)) / (n * Real.pi))

/-- Engine state silently inert after a failed initialization: no audio
context, no master gain, no voices, nothing loaded, nothing running
(these are exactly the relevant field initializers, which a failed init
leaves untouched and which play can never change without a context). -/
def Inert (s : EngineState) : Prop :=
  s.audioCtx = false ∧ s.masterGain = none ∧ s.pulse1 = none ∧ s.pulse2 = none ∧
  s.tri = none ∧ s.currentSong = none ∧ s.currentTrackName = "" ∧
  s.isPlaying = false ∧ s.currentStep = 0 ∧ s.schedulerTimer = false

instance (s : EngineState) : Decidable (Inert s) := by
  unfold Inert; infer_instance

/-- Step-index invariant: with a loaded song the current step index is
below the loop length (the pulse1 sequence length); with no song loaded
it is 0. -/
def StepInvariant (s : EngineState) : Prop :=
  match s.currentSong with
  | some song => s.currentStep < song.pulse1.length
  | none => s.currentStep = 0

instance (s : EngineState) : Decidable (StepInvariant s) := by
  unfold StepInvariant; exact match s.currentSong with
    | some _ => inferInstance
    | none => inferInstance

/-- A representative engine state in the middle of playing the game
track: context and master gain live, the three tonal voices created, the
game song loaded at step 0 with the scheduler timer running. -/
def playingGameState : EngineState where
  audioCtx := true
  masterGain := some ⟨105/1000, []⟩
  pulse1 := some ⟨⟨440, []⟩, ⟨0, []⟩⟩
  pulse2 := some ⟨⟨440, []⟩, ⟨0, []⟩⟩
  tri := some ⟨⟨110, []⟩, ⟨0, []⟩⟩
  noiseBuffer := true
  currentSong := some gameSong
  currentTrackName := "game"
  isPlaying := true
  currentStep := 0
  nextStepTime := 0
  schedulerTimer := true
  volume := 105/1000
  muted := false

/-- Engine state mid fade-in: a linear ramp toward the configured
volume, ending at time 2/5, is still pending on the master gain. -/
def fadingState : EngineState :=
  { initState with
    audioCtx := true
    masterGain := some ⟨0, [AEvent.linearRamp (105/1000) (2/5)]⟩ }

/-- C9: for every track in the compiled-in song table, the pulse-A,
pulse-B, triangle and noise step sequences all have the same length,
the loop period of the track. -/
theorem songTable_equal_channel_lengths :
    ∀ p ∈ SONGS, channelsEqualLength p.2 := by
  decide

/-- Witness for C9 at the game track. -/
theorem songTable_equal_channel_lengths_witness :
    ("game", gameSong) ∈ SONGS ∧ channelsEqualLength gameSong := by
  refine ⟨by simp [SONGS], ?_⟩
  exact songTable_equal_channel_lengths ("game", gameSong) (by simp [SONGS])

/-- C6: play on a track name that is not in the song table leaves the
engine state unchanged and performs nothing beyond at most a console
warning (no sound, no resources, no error). -/
theorem play_unknown_track_ignored (s : EngineState) (trackName : String)
    (susp : Bool) (now : ℚ) (h : lookupSong trackName = none) :
    (play s trackName susp now).1 = s ∧
    ((play s trackName susp now).2 = [] ∨
      (play s trackName susp now).2 = [Effect.warnUnknown trackName]) := by
  unfold play
  by_cases hc : s.audioCtx ∧ s.masterGain.isSome
  · simp [hc, h]
  · simp [hc]

/-- Witness for C6: an unknown name against a playing engine. -/
theorem play_unknown_track_ignored_witness :
    lookupSong "bogus" = none ∧
    ((play playingGameState "bogus" false 0).1 = playingGameState ∧
      ((play playingGameState "bogus" false 0).2 = [] ∨
        (play playingGameState "bogus" false 0).2 = [Effect.warnUnknown "bogus"])) :=
  ⟨by decide, play_unknown_track_ignored playingGameState "bogus" false 0 (by decide)⟩

/-- C3: when the engine is already playing track X, a second play(X) is
a complete no-op — the state (oscillators, step index, next-step time,
timer, every field) is returned unchanged and no effect (no teardown, no
oscillator creation, no second timer, no second session start) is
produced. -/
theorem play_same_track_noop (s : EngineState) (X : String) (susp : Bool) (now : ℚ)
    (hX : (lookupSong X).isSome) (hp : s.isPlaying = true)
    (hn : s.currentTrackName = X) :
    play s X susp now = (s, []) := by
  obtain ⟨song, hsong⟩ := Option.isSome_iff_exists.mp hX
  unfold play
  by_cases hc : s.audioCtx ∧ s.masterGain.isSome
  · simp [hc, hsong, hp, hn]
  · simp [hc]

/-- Witness for C3: replaying the game track while it is playing. -/
theorem play_same_track_noop_witness :
    ((lookupSong "game").isSome ∧ playingGameState.isPlaying = true ∧
      playingGameState.currentTrackName = "game") ∧
    play playingGameState "game" false 0 = (playingGameState, []) :=
  ⟨⟨by decide, rfl, rfl⟩,
   play_same_track_noop playingGameState "game" false 0 (by decide) rfl rfl⟩

/-- C5: for a scheduled step on a tonal channel, the sustain marker S
performs no gain or frequency automation at all (no attack retrigger);
a rest (0) leaves the frequency alone and schedules gain 0 at 3 ms after
the step time (after cancelling pending gain automation); a positive
value v schedules the oscillator frequency to v at the step time and
ramps the gain from 0 at the step time to the channel volume 5 ms
later. -/
theorem scheduleTonalNote_spec (ch : ChannelState) (vol t : ℚ) :
    scheduleTonalNote ch S vol t = ch ∧
    ((scheduleTonalNote ch R vol t).freq = ch.freq ∧
      (scheduleTonalNote ch R vol t).gain =
        ⟨ch.gain.value,
         ch.gain.events.filter (fun e => e.time < t) ++
           [AEvent.setValue 0 (t + 3/1000)]⟩) ∧
    ∀ v, 0 < v →
      scheduleTonalNote ch v vol t =
        ⟨⟨ch.freq.value,
          ch.freq.events.filter (fun e => e.time < t) ++ [AEvent.setValue v t]⟩,
         ⟨ch.gain.value,
          ch.gain.events.filter (fun e => e.time < t) ++
            [AEvent.setValue 0 t, AEvent.linearRamp vol (t + 5/1000)]⟩⟩ := by
  refine ⟨?_, ⟨?_, ?_⟩, ?_⟩
  · rw [scheduleTonalNote, S, if_neg (by norm_num), if_neg (by norm_num)]
  · rw [scheduleTonalNote, R, if_neg (by norm_num), if_pos rfl]
  · rw [scheduleTonalNote, R, if_neg (by norm_num), if_pos rfl]
    simp [Param.cancelScheduledValues, Param.setValueAtTime]
  · intro v hv
    rw [scheduleTonalNote, if_pos hv]
    simp [Param.cancelScheduledValues, Param.setValueAtTime,
      Param.linearRampToValueAtTime]

/-- Witness for C5 at a concrete voice: sustain is the identity and a
440 Hz note retunes and retriggers the attack ramp. -/
theorem scheduleTonalNote_spec_witness :
    (0:ℚ) < 440 ∧
    scheduleTonalNote ⟨⟨440, []⟩, ⟨0, []⟩⟩ S (21/200) 1 = ⟨⟨440, []⟩, ⟨0, []⟩⟩ ∧
    scheduleTonalNote ⟨⟨440, []⟩, ⟨0, []⟩⟩ 440 (21/200) 1 =
      ⟨⟨440, [AEvent.setValue 440 1]⟩,
       ⟨0, [AEvent.setValue 0 1, AEvent.linearRamp (21/200) (1 + 5/1000)]⟩⟩ := by
  refine ⟨by norm_num, (scheduleTonalNote_spec ⟨⟨440, []⟩, ⟨0, []⟩⟩ (21/200) 1).1, ?_⟩
  have h := (scheduleTonalNote_spec ⟨⟨440, []⟩, ⟨0, []⟩⟩ (21/200) 1).2.2 440 (by norm_num)
  simpa using h

/-- C4 counterexample: with a linear fade ramp still pending on the
master gain (ending at time 2/5, after the current time 0), toggleMute
removes the pending ramp — the scheduled automation is cancelled, not
left intact as the claim states. -/
theorem toggleMute_cancels_pending_fade :
    ((toggleMute fadingState 0).1.masterGain = some ⟨0, [AEvent.setValue 0 0]⟩) ∧
    ¬ AEvent.linearRamp (105/1000) (2/5) ∈
        (((toggleMute fadingState 0).1.masterGain).map Param.events).getD [] := by
  have h : (toggleMute fadingState 0).1.masterGain =
      some ⟨0, [AEvent.setValue 0 0]⟩ := by
    simp [toggleMute, fadingState, initState, Param.cancelScheduledValues,
      Param.setValueAtTime, AEvent.time]
    norm_num
  refine ⟨h, ?_⟩
  rw [h]
  decide

/-- C4 (amended): toggleMute flips the muted flag and returns it, keeps
the stored volume and playback state, and re-applies the effective gain
(0 if now muted, else the current volume) at the current time — after
cancelling every automation event scheduled at or after the current
time; only events strictly before now survive. -/
theorem toggleMute_spec (s : EngineState) (now : ℚ) (g : Param)
    (hg : s.masterGain = some g) (hc : s.audioCtx = true) :
    (toggleMute s now).2 = !s.muted ∧
    (toggleMute s now).1.muted = !s.muted ∧
    (toggleMute s now).1.volume = s.volume ∧
    (toggleMute s now).1.isPlaying = s.isPlaying ∧
    (toggleMute s now).1.currentSong = s.currentSong ∧
    ∃ g2, (toggleMute s now).1.masterGain = some g2 ∧ g2.value = g.value ∧
      ∀ e : AEvent, e ∈ g2.events ↔
        ((e ∈ g.events ∧ e.time < now) ∨
          e = AEvent.setValue (if s.muted then s.volume else 0) now) := by
  unfold toggleMute
  simp only [hg, hc, Option.isSome_some, Option.map_some, and_true, if_true]
  cases hm : s.muted <;>
    simp [Param.cancelScheduledValues, Param.setValueAtTime, List.mem_filter,
      List.mem_append, and_comm]

/-- Witness for C4 at the playing state (unmuted, empty event list). -/
theorem toggleMute_spec_witness :
    (playingGameState.masterGain = some ⟨105/1000, []⟩ ∧
      playingGameState.audioCtx = true) ∧
    (toggleMute playingGameState 0).2 = !playingGameState.muted :=
  ⟨⟨rfl, rfl⟩, (toggleMute_spec playingGameState 0 ⟨105/1000, []⟩ rfl rfl).1⟩

/-- Helper: stopInternal resets the sequencer state and keeps the audio
context, master gain, volume and mute flag. -/
theorem stopInternal_fields (s : EngineState) :
    (stopInternal s).1.audioCtx = s.audioCtx ∧
    (stopInternal s).1.masterGain = s.masterGain ∧
    (stopInternal s).1.currentSong = none ∧
    (stopInternal s).1.currentStep = 0 ∧
    (stopInternal s).1.isPlaying = false ∧
    (stopInternal s).1.currentTrackName = "" ∧
    (stopInternal s).1.schedulerTimer = false ∧
    (stopInternal s).1.volume = s.volume ∧
    (stopInternal s).1.muted = s.muted := by
  unfold stopInternal destroyOscillators
  by_cases ht : s.schedulerTimer <;> simp [ht]

/-- Helper: createOscillators only touches the three voice fields. -/
theorem createOscillators_fields (s : EngineState) :
    (createOscillators s).1.currentSong = s.currentSong ∧
    (createOscillators s).1.currentStep = s.currentStep ∧
    (createOscillators s).1.currentTrackName = s.currentTrackName ∧
    (createOscillators s).1.isPlaying = s.isPlaying ∧
    (createOscillators s).1.masterGain = s.masterGain ∧
    (createOscillators s).1.nextStepTime = s.nextStepTime := by
  unfold createOscillators
  split <;> simp

/-- Helper: the sequencer fields of the state play returns on its
successful path. -/
theorem play_success_fields (s : EngineState) (trackName : String) (susp : Bool)
    (now : ℚ) (song : SongData) (hc : s.audioCtx = true)
    (hmg : s.masterGain.isSome) (hl : lookupSong trackName = some song)
    (hns : ¬(s.isPlaying = true ∧ s.currentTrackName = trackName)) :
    (play s trackName susp now).1.currentSong = some song ∧
    (play s trackName susp now).1.currentStep = 0 ∧
    (play s trackName susp now).1.currentTrackName = trackName ∧
    (play s trackName susp now).1.isPlaying = true := by
  unfold play
  simp only [hc, hmg, hl, true_and, and_true, if_true]
  rw [if_neg hns]
  simp [createOscillators_fields]

/-- Helper: the songs reachable through the table all have a nonempty
pulse1 sequence. -/
theorem lookupSong_pulse1_length_pos (trackName : String) (song : SongData)
    (h : lookupSong trackName = some song) : 0 < song.pulse1.length := by
  simp only [lookupSong, SONGS, List.lookup] at h
  split at h
  · cases h; decide
  · split at h
    · cases h; decide
    · split at h
      · cases h; decide
      · split at h
        · cases h; decide
        · cases h

/-- C7: an engine whose initialization failed (no audio context, hence
no master gain, no voices, nothing loaded, nothing running) is a fully
silent no-op machine: a retried failing init and every public call
leaves it inert, produces no effect (no sound, no resources) and throws
nothing — the operations are total functions; the getters report the
inert values. -/
theorem inert_engine_silent (s : EngineState) (h : Inert s) :
    init s false = s ∧
    (∀ trackName susp now, play s trackName susp now = (s, [])) ∧
    (∀ now, stop s now = (s, [])) ∧
    stopImmediate s = (s, []) ∧
    (∀ vol now, Inert (setVolume s vol now) ∧ (setVolume s vol now).muted = s.muted) ∧
    (∀ now, Inert (toggleMute s now).1 ∧ (toggleMute s now).2 = !s.muted) ∧
    isCurrentlyPlaying s = false ∧
    getCurrentTrack s = "" ∧
    isMuted s = s.muted := by
  obtain ⟨ctx, mg, p1, p2, tr, nb, cs, ctn, ip, cst, nst, st, vol, mu⟩ := s
  obtain ⟨h1, h2, h3, h4, h5, h6, h7, h8, h9, h10⟩ := h
  subst h1 h2 h3 h4 h5 h6 h7 h8 h9 h10
  refine ⟨rfl, ?_, ?_, rfl, ?_, ?_, rfl, rfl, rfl⟩
  · intro trackName susp now
    simp [play]
  · intro now
    simp [stop]
  · intro v now
    simp [setVolume, Inert]
  · intro now
    simp [toggleMute, Inert]

/-- Witness for C7: the freshly constructed engine (with no audio
context) swallows a play call without sound or state change. -/
theorem inert_engine_silent_witness :
    Inert initState ∧ play initState "game" false 0 = (initState, []) :=
  ⟨by decide, (inert_engine_silent initState (by decide)).2.1 "game" false 0⟩

/-- C10: the step-index invariant — step index below the loop length
when a song is loaded, 0 when none is — is preserved by advanceStep (the
scheduler advance), by play (any arguments) and by stopInternal (the
teardown), so sequence lookups at the step index stay in bounds. -/
theorem step_invariant_preserved (s : EngineState) (h : StepInvariant s) :
    StepInvariant (advanceStep s) ∧
    (∀ trackName susp now, StepInvariant (play s trackName susp now).1) ∧
    StepInvariant (stopInternal s).1 := by
  refine ⟨?_, ?_, ?_⟩
  · cases hs : s.currentSong with
    | none => simpa [advanceStep, hs] using h
    | some song =>
      have hlt : s.currentStep < song.pulse1.length := by
        simpa [StepInvariant, hs] using h
      simp only [advanceStep, hs, StepInvariant]
      split <;> omega
  · intro trackName susp now
    by_cases hc : s.audioCtx = true ∧ s.masterGain.isSome
    · cases hl : lookupSong trackName with
      | none =>
        unfold play
        simpa [hc.1, hc.2, hl] using h
      | some song =>
        by_cases hsame : s.isPlaying = true ∧ s.currentTrackName = trackName
        · unfold play
          simpa [hc.1, hc.2, hl, hsame] using h
        · obtain ⟨hcs, hcst, -, -⟩ :=
            play_success_fields s trackName susp now song hc.1 hc.2 hl hsame
          have hpos := lookupSong_pulse1_length_pos trackName song hl
          simp [StepInvariant, hcs, hcst, hpos]
    · unfold play
      have hc2 : ¬(s.audioCtx = true ∧ s.masterGain.isSome = true) := by
        simpa using hc
      simpa [hc2] using h
  · obtain ⟨-, -, hcs, hcst, -⟩ := stopInternal_fields s
    simp [StepInvariant, hcs, hcst]

/-- Witness for C10 at the playing state. -/
theorem step_invariant_preserved_witness :
    StepInvariant playingGameState ∧
    StepInvariant (advanceStep playingGameState) :=
  ⟨by decide, (step_invariant_preserved playingGameState (by decide)).1⟩

/-- Helper: incrementing a step index with wrap at the loop length is
the successor modulo the loop length. -/
theorem step_mod (k len : ℕ) (hlen : 0 < len) :
    (if len ≤ k % len + 1 then 0 else k % len + 1) = (k + 1) % len := by
  have hk : k % len < len := Nat.mod_lt _ hlen
  have hrew : (k + 1) % len = (k % len + 1) % len := by
    conv_lhs => rw [← Nat.mod_add_div k len]
    rw [Nat.add_right_comm, Nat.add_mul_mod_self_left]
  by_cases hcase : len ≤ k % len + 1
  · have he : k % len + 1 = len := le_antisymm (Nat.succ_le_of_lt hk) hcase
    rw [if_pos hcase, hrew, he, Nat.mod_self]
  · rw [if_neg hcase, hrew]
    exact (Nat.mod_eq_of_lt (by omega)).symm

/-- Helper: closed form of k advanceStep iterations from step 0 — the
next-step timestamp grows by exactly k times the fixed step duration and
the step index is k modulo the loop length. -/
theorem advanceStep_iterate (s : EngineState) (song : SongData)
    (hsong : s.currentSong = some song) (hlen : 0 < song.pulse1.length)
    (hstep : s.currentStep = 0) (k : ℕ) :
    advanceStep^[k] s =
      { s with
        currentStep := k % song.pulse1.length
        nextStepTime := s.nextStepTime + k * (60 / song.tempo / 2) } := by
  obtain ⟨ctx, mg, p1, p2, tr, nb, cs, ctn, ip, cst, nst, st, vol, mu⟩ := s
  obtain rfl : cs = some song := hsong
  obtain rfl : cst = 0 := hstep
  induction k with
  | zero => simp
  | succ k ih =>
    rw [Function.iterate_succ_apply', ih]
    simp only [advanceStep, EngineState.mk.injEq, and_true, true_and]
    rw [step_mod k song.pulse1.length hlen]
    refine ⟨rfl, ?_⟩
    push_cast
    ring

/-- C1: for a loaded song with positive tempo, after k scheduler
advances from step 0 the next-step timestamp is its initial value plus
exactly k times the fixed step duration 60 / tempo / 2 (pure addition of
a constant, no drift), and the step index is k modulo the loop length. -/
theorem advanceStep_no_drift (s : EngineState) (song : SongData) (k : ℕ)
    (hsong : s.currentSong = some song) (htempo : 0 < song.tempo)
    (hlen : 0 < song.pulse1.length) (hstep : s.currentStep = 0) :
    (advanceStep^[k] s).nextStepTime =
      s.nextStepTime + k * (60 / song.tempo / 2) ∧
    (advanceStep^[k] s).currentStep = k % song.pulse1.length := by
  rw [advanceStep_iterate s song hsong hlen hstep k]
  exact ⟨rfl, rfl⟩

/-- Witness for C1: ten thousand steps of the game track. -/
theorem advanceStep_no_drift_witness :
    (playingGameState.currentSong = some gameSong ∧ (0:ℚ) < gameSong.tempo ∧
      0 < gameSong.pulse1.length ∧ playingGameState.currentStep = 0) ∧
    ((advanceStep^[10000] playingGameState).nextStepTime =
        playingGameState.nextStepTime + 10000 * (60 / gameSong.tempo / 2) ∧
      (advanceStep^[10000] playingGameState).currentStep =
        10000 % gameSong.pulse1.length) :=
  ⟨⟨rfl, by decide, by decide, rfl⟩,
   advanceStep_no_drift playingGameState gameSong 10000 rfl (by decide) (by decide) rfl⟩

/-- Helper: scheduleStep never changes the sequencer bookkeeping. -/
theorem scheduleStep_fields (s : EngineState) (step : ℕ) (time : ℚ) :
    (scheduleStep s step time).1.nextStepTime = s.nextStepTime ∧
    (scheduleStep s step time).1.currentSong = s.currentSong ∧
    (scheduleStep s step time).1.currentStep = s.currentStep := by
  cases hs : s.currentSong <;> simp [scheduleStep, hs]

/-- Helper: advanceStep keeps the loaded song and adds one step
duration. -/
theorem advanceStep_song_time (s : EngineState) (song : SongData)
    (hsong : s.currentSong = some song) :
    (advanceStep s).currentSong = some song ∧
    (advanceStep s).nextStepTime = s.nextStepTime + 60 / song.tempo / 2 := by
  simp [advanceStep, hsong]

/-- Helper: with enough fuel to cover the lookahead window, the schedule
loop reaches a state past the window (the while guard goes false), runs
at most fuel iterations, and extra fuel changes nothing. -/
theorem scheduleLoop_terminates (now : ℚ) (song : SongData) :
    ∀ (fuel : ℕ) (s : EngineState), s.currentSong = some song →
      now + LOOKAHEAD ≤ s.nextStepTime + (fuel : ℚ) * (60 / song.tempo / 2) →
      ¬ (scheduleLoop now fuel s).1.nextStepTime < now + LOOKAHEAD ∧
      (scheduleLoop now fuel s).2.2 ≤ fuel ∧
      ∀ extra, scheduleLoop now (fuel + extra) s = scheduleLoop now fuel s := by
  intro fuel
  induction fuel with
  | zero =>
    intro s hsong hle
    simp only [Nat.cast_zero, zero_mul, add_zero] at hle
    refine ⟨not_lt.mpr hle, le_refl 0, ?_⟩
    intro extra
    cases extra with
    | zero => rfl
    | succ e =>
      rw [Nat.zero_add]
      simp [scheduleLoop, not_lt.mpr hle]
  | succ fuel ih =>
    intro s hsong hle
    by_cases hg : s.nextStepTime < now + LOOKAHEAD
    · obtain ⟨hst, hcs, -⟩ := scheduleStep_fields s s.currentStep s.nextStepTime
      obtain ⟨hcs2, hst2⟩ := advanceStep_song_time
        (scheduleStep s s.currentStep s.nextStepTime).1 song (hcs.trans hsong)
      have hle2 : now + LOOKAHEAD ≤
          (advanceStep (scheduleStep s s.currentStep s.nextStepTime).1).nextStepTime +
            fuel * (60 / song.tempo / 2) := by
        rw [hst2, hst]
        push_cast at hle ⊢
        linarith
      obtain ⟨g1, g2, g3⟩ := ih (advanceStep (scheduleStep s s.currentStep s.nextStepTime).1)
        hcs2 hle2
      refine ⟨?_, ?_, ?_⟩
      · simp only [scheduleLoop]
        rw [if_pos hg]
        exact g1
      · simp only [scheduleLoop]
        rw [if_pos hg]
        simpa using Nat.succ_le_succ g2
      · intro extra
        have harith : fuel + 1 + extra = (fuel + extra) + 1 := by omega
        rw [harith]
        simp only [scheduleLoop]
        rw [if_pos hg, if_pos hg, g3 extra]
    · refine ⟨?_, ?_, ?_⟩
      · simp only [scheduleLoop]
        rw [if_neg hg]
        exact hg
      · simp only [scheduleLoop]
        rw [if_neg hg]
        exact Nat.zero_le _
      · intro extra
        have harith : fuel + 1 + extra = (fuel + extra) + 1 := by omega
        rw [harith]
        simp only [scheduleLoop]
        rw [if_neg hg, if_neg hg]

/-- C8: a scheduler tick with a loaded song of positive tempo and a
next-step time not in the past does bounded work: with fuel
B = ceil(LOOKAHEAD / stepDuration) + 1 the while loop has already
terminated (the guard is false and more fuel changes nothing) and the
number of scheduled steps is at most B. -/
theorem schedule_tick_bounded (s : EngineState) (song : SongData) (now : ℚ)
    (hp : s.isPlaying = true) (hctx : s.audioCtx = true)
    (hsong : s.currentSong = some song) (htempo : 0 < song.tempo)
    (hfull : now ≤ s.nextStepTime) :
    (schedule s now (⌈LOOKAHEAD / (60 / song.tempo / 2)⌉₊ + 1)).2.2 ≤
      ⌈LOOKAHEAD / (60 / song.tempo / 2)⌉₊ + 1 ∧
    ¬ (schedule s now (⌈LOOKAHEAD / (60 / song.tempo / 2)⌉₊ + 1)).1.nextStepTime <
        now + LOOKAHEAD ∧
    ∀ extra,
      schedule s now (⌈LOOKAHEAD / (60 / song.tempo / 2)⌉₊ + 1 + extra) =
        schedule s now (⌈LOOKAHEAD / (60 / song.tempo / 2)⌉₊ + 1) := by
  have hd : 0 < 60 / song.tempo / 2 :=
    div_pos (div_pos (by norm_num) htempo) (by norm_num)
  have h1 : LOOKAHEAD / (60 / song.tempo / 2) ≤
      (⌈LOOKAHEAD / (60 / song.tempo / 2)⌉₊ : ℚ) :=
    Nat.le_ceil _
  have h2 : LOOKAHEAD ≤ (⌈LOOKAHEAD / (60 / song.tempo / 2)⌉₊ : ℚ) *
      (60 / song.tempo / 2) := by
    rw [← div_le_iff₀ hd]
    exact h1
  have h3 : (⌈LOOKAHEAD / (60 / song.tempo / 2)⌉₊ : ℚ) * (60 / song.tempo / 2) ≤
      ((⌈LOOKAHEAD / (60 / song.tempo / 2)⌉₊ : ℚ) + 1) * (60 / song.tempo / 2) := by
    apply mul_le_mul_of_nonneg_right _ hd.le
    linarith
  have hBd : LOOKAHEAD ≤ (↑(⌈LOOKAHEAD / (60 / song.tempo / 2)⌉₊ + 1) : ℚ) *
      (60 / song.tempo / 2) := by
    push_cast
    linarith
  have hle : now + LOOKAHEAD ≤ s.nextStepTime +
      (↑(⌈LOOKAHEAD / (60 / song.tempo / 2)⌉₊ + 1) : ℚ) * (60 / song.tempo / 2) := by
    linarith
  have hsch : ∀ f, schedule s now f = scheduleLoop now f s := by
    intro f
    simp [schedule, hp, hctx, hsong]
  obtain ⟨g1, g2, g3⟩ := scheduleLoop_terminates now song
    (⌈LOOKAHEAD / (60 / song.tempo / 2)⌉₊ + 1) s hsong hle
  refine ⟨?_, ?_, ?_⟩
  · rw [hsch]; exact g2
  · rw [hsch]; exact g1
  · intro extra
    rw [hsch, hsch]
    exact g3 extra

/-- Witness for C8: one tick of the game track at time 0. -/
theorem schedule_tick_bounded_witness :
    (playingGameState.isPlaying = true ∧ playingGameState.audioCtx = true ∧
      playingGameState.currentSong = some gameSong ∧ (0:ℚ) < gameSong.tempo ∧
      (0:ℚ) ≤ playingGameState.nextStepTime) ∧
    (schedule playingGameState 0 (⌈LOOKAHEAD / (60 / gameSong.tempo / 2)⌉₊ + 1)).2.2 ≤
      ⌈LOOKAHEAD / (60 / gameSong.tempo / 2)⌉₊ + 1 :=
  ⟨⟨rfl, rfl, rfl, by decide, by decide⟩,
   (schedule_tick_bounded playingGameState gameSong 0 rfl rfl rfl (by decide)
      (by decide)).1⟩

/-- C2 counterexample: the claim ranges the harmonic index n over 1..N
with N = 64, but the coefficient arrays have length 64 (indices 0..63):
at n = 64 there is no coefficient at all, so the claimed equation fails
there. -/
theorem createPulseWave_missing_harmonic_64 :
    (createPulseWave (1/2)).1[64]? ≠
      some (Real.sin (2 * Real.pi * 64 * (1/2)) / (64 * Real.pi)) := by
  have h : (createPulseWave (1/2 : ℝ)).1[64]? = none := by
    rw [createPulseWave, List.getElem?_eq_none]
    simp
  rw [h]
  simp

/-- C2 (amended): for a duty cycle d in (0,1) the pulse waveform
coefficient arrays have real[0] = imag[0] = 0 and, for every harmonic
index n with 1 ≤ n ≤ 63 (not 64: the loop runs n = 1..N−1),
real[n] = sin(2·pi·n·d) / (n·pi) and
imag[n] = (1 − cos(2·pi·n·d)) / (n·pi). -/
theorem createPulseWave_harmonics (d : ℝ) (h0 : 0 < d) (h1 : d < 1) :
    (createPulseWave d).1[0]? = some 0 ∧
    (createPulseWave d).2[0]? = some 0 ∧
    ∀ n : ℕ, 1 ≤ n → n < 64 →
      (createPulseWave d).1[n]? =
        some (Real.sin (2 * Real.pi * n * d) / (n * Real.pi)) ∧
      (createPulseWave d).2[n]? =
        some ((1 - Real.cos (2 * Real.pi * n * d)) / (n * Real.pi)) := by
  refine ⟨?_, ?_, ?_⟩
  · rw [createPulseWave]
    rw [List.getElem?_map, List.getElem?_range (by norm_num)]
    simp
  · rw [createPulseWave]
    rw [List.getElem?_map, List.getElem?_range (by norm_num)]
    simp
  · intro n hn1 hn2
    have hnz : n ≠ 0 := by omega
    constructor
    · rw [createPulseWave]
      rw [List.getElem?_map, List.getElem?_range hn2]
      simp [hnz]
    · rw [createPulseWave]
      rw [List.getElem?_map, List.getElem?_range hn2]
      simp [hnz]

/-- Witness for C2 at duty cycle 1/2, harmonic 1. -/
theorem createPulseWave_harmonics_witness :
    ((0:ℝ) < 1/2 ∧ (1/2:ℝ) < 1) ∧
    (createPulseWave (1/2)).1[0]? = some 0 ∧
    (createPulseWave (1/2)).1[1]? =
      some (Real.sin (2 * Real.pi * 1 * (1/2)) / (1 * Real.pi)) := by
  have h := createPulseWave_harmonics (1/2) (by norm_num) (by norm_num)
  exact ⟨⟨by norm_num, by norm_num⟩, h.1,
    by simpa using (h.2.2 1 (by norm_num) (by norm_num)).1⟩

end Chiptune
